import Mathlib

/-!
Verification of the Orchestry controller against its specification.

This file gives a shallow embedding of the parts of the Orchestry code base
that the specification claims talk about:

* `controller/scaler.py` — the autoscaler (`ScalingPolicy`, metric history
  aggregation, scale-factor computation, and `evaluate_scaling`);
* `controller/cluster.py` — the leader-lease SQL operations
  (`_try_acquire_leadership`, `_release_leadership`);
* `controller/manager.py` — `AppManager.scale` and replica index handling;
* `state/db.py` — connection routing (`_get_connection`) and the error
  behaviour of the store operations.

Numeric values that are Python floats are modelled as rationals (`ℚ`);
Python ints are modelled as `Int`/`Nat`.  Decision `reason` strings, which in
the code are f-strings interpolating numeric values, are modelled by the
inductive type `Reason` that records which branch produced the decision;
`triggered_by` entries are modelled by the metric name (the code appends the
formatted factor value to the name, which no claim depends on).
-/

namespace Orchestry

/-- A single metric measurement (`MetricPoint` in `controller/scaler.py`). -/
structure MetricPoint where
  timestamp : ℚ
  value : ℚ
deriving DecidableEq

/-- Scaling policy configuration (`ScalingPolicy` in `controller/scaler.py`),
with the dataclass field defaults. -/
structure ScalingPolicy where
  min_replicas : Int := 1
  max_replicas : Int := 5
  target_rps_per_replica : Int := 50
  max_p95_latency_ms : Int := 250
  max_conn_per_replica : Int := 80
  scale_out_threshold_pct : Int := 80
  scale_in_threshold_pct : Int := 30
  window_seconds : Int := 20
  cooldown_seconds : Int := 30
  max_cpu_percent : ℚ := 70
  max_memory_percent : ℚ := 75
deriving DecidableEq

/-- The validation performed by `ScalingPolicy.__post_init__`: the checks run
in source order and the first failing check raises `ValueError`.  Error
messages that interpolate field values are kept as their constant template
text. -/
def ScalingPolicy.postInitValidate (p : ScalingPolicy) : Except String Unit :=
  if p.min_replicas < 1 then .error "min_replicas must be >= 1"
  else if p.max_replicas < p.min_replicas then .error "max_replicas must be >= min_replicas"
  else if p.scale_out_threshold_pct ≤ p.scale_in_threshold_pct then
    .error "scale_in_threshold must be < scale_out_threshold"
  else if p.window_seconds < 1 then .error "window_seconds must be >= 1"
  else if p.cooldown_seconds < 0 then .error "cooldown_seconds must be >= 0"
  else if p.target_rps_per_replica < 0 then .error "target_rps_per_replica must be >= 0"
  else if p.max_p95_latency_ms < 0 then .error "max_p95_latency_ms must be >= 0"
  else if p.max_conn_per_replica < 0 then .error "max_conn_per_replica must be >= 0"
  else if p.max_cpu_percent ≤ 0 ∨ 100 < p.max_cpu_percent then
    .error "max_cpu_percent must be between 0 and 100"
  else if p.max_memory_percent ≤ 0 ∨ 100 < p.max_memory_percent then
    .error "max_memory_percent must be between 0 and 100"
  else .ok ()

/-- Aggregated container metrics (`ScalingMetrics` in `controller/scaler.py`). -/
structure ScalingMetrics where
  rps : ℚ := 0
  p95_latency_ms : ℚ := 0
  active_connections : Int := 0
  cpu_percent : ℚ := 0
  memory_percent : ℚ := 0
  healthy_replicas : Int := 0
  total_replicas : Int := 0
deriving DecidableEq

/-- Which branch of the autoscaler produced a decision.  The code stores a
human-readable f-string here; the constructors below are in one-to-one
correspondence with the `reason = ...` assignments in `evaluate_scaling` and
`_make_scaling_decision`. -/
inductive Reason where
  | manualMode
  | noPolicy
  | belowMinimum
  | belowMinimumBypassCooldown
  | inCooldown
  | noMetricsBelowMinimum
  | noMetrics
  | emergencyNoHealthy
  | scaleOut
  | scaleIn
  | waitingStability
  | withinThresholds
  | enforceMinimum
deriving DecidableEq

/-- Result of a scaling evaluation (`ScalingDecision` in `controller/scaler.py`). -/
structure ScalingDecision where
  should_scale : Bool
  target_replicas : Int
  current_replicas : Int
  reason : Reason
  triggered_by : List String := []
  metrics : Option ScalingMetrics := none
deriving DecidableEq

/-- Per-app metric history: `self.metrics_history[app_name]`, one deque per
metric type as populated by `add_metrics`. -/
structure MetricsHistory where
  rps : List MetricPoint := []
  latency : List MetricPoint := []
  connections : List MetricPoint := []
  cpu : List MetricPoint := []
  memory : List MetricPoint := []
  healthy_replicas : List MetricPoint := []
  total_replicas : List MetricPoint := []

/-- Module constant `EMERGENCY_SCALE_FACTOR = 10.0`. -/
def EMERGENCY_SCALE_FACTOR : ℚ := 10

/-- Module constant `MIN_SCALE_IN_STABLE_PERIODS = 3`. -/
def MIN_SCALE_IN_STABLE_PERIODS : Nat := 3

/-- Python `int(q)`: truncation toward zero. -/
def pyInt (q : ℚ) : Int := q.num.tdiv q.den

/-- Python `statistics.mean` (callers guard against the empty list). -/
def listMean (l : List ℚ) : ℚ := l.sum / (l.length : ℚ)

/-- Python `max` over a nonempty list (0 for the empty list, never used). -/
def pyMax (l : List ℚ) : ℚ :=
  match l with
  | [] => 0
  | x :: xs => xs.foldl max x

/-- Python `statistics.quantiles(data, n)` with the default exclusive method:
sort the data, then interpolate the `n - 1` cut points.  Callers guard
`2 ≤ data.length`, which keeps every index in range. -/
def pyQuantiles (data : List ℚ) (n : Nat) : List ℚ :=
  let sorted := List.insertionSort (· ≤ ·) data
  let ld := data.length
  let m := ld + 1
  (List.range (n - 1)).map fun k =>
    let i := k + 1
    let j0 := i * m / n
    let delta := i * m % n
    let j := if j0 < 1 then 1 else if ld - 1 < j0 then ld - 1 else j0
    (sorted.getD (j - 1) 0 * ((n : ℚ) - (delta : ℚ)) + sorted.getD j 0 * (delta : ℚ)) / (n : ℚ)

/-- Values of the points in the window: `[p.value for p in history[k] if p.timestamp >= cutoff_time]`. -/
def recentValues (points : List MetricPoint) (cutoff : ℚ) : List ℚ :=
  (points.filter fun p => cutoff ≤ p.timestamp).map MetricPoint.value

/-- `AutoScaler._get_recent_metrics`: aggregate the metric history over the
last `window_seconds` seconds.  Returns `none` when the rps, latency and
healthy-replica windows are all empty.  The `healthy_replicas` and
`total_replicas` aggregates are clamped to at least 1
(`max(1, int(avg_healthy))`). -/
def getRecentMetrics (history : MetricsHistory) (now : ℚ) (window_seconds : Int) :
    Option ScalingMetrics :=
  let cutoff_time := now - (window_seconds : ℚ)
  let recent_rps := recentValues history.rps cutoff_time
  let recent_latency := recentValues history.latency cutoff_time
  let recent_connections := recentValues history.connections cutoff_time
  let recent_cpu := recentValues history.cpu cutoff_time
  let recent_memory := recentValues history.memory cutoff_time
  let recent_healthy := recentValues history.healthy_replicas cutoff_time
  let recent_total := recentValues history.total_replicas cutoff_time
  if recent_rps.isEmpty ∧ recent_latency.isEmpty ∧ recent_healthy.isEmpty then none
  else
    let p95_latency : ℚ :=
      if recent_latency.isEmpty then 0
      else if 2 ≤ recent_latency.length then (pyQuantiles recent_latency 20).getD 18 0
      else pyMax recent_latency
    let avg_rps := if recent_rps.isEmpty then 0 else listMean recent_rps
    let avg_connections := if recent_connections.isEmpty then 0 else listMean recent_connections
    let avg_cpu := if recent_cpu.isEmpty then 0 else listMean recent_cpu
    let avg_memory := if recent_memory.isEmpty then 0 else listMean recent_memory
    let avg_healthy := if recent_healthy.isEmpty then 1 else listMean recent_healthy
    let avg_total := if recent_total.isEmpty then 1 else listMean recent_total
    some {
      rps := avg_rps
      p95_latency_ms := p95_latency
      active_connections := pyInt avg_connections
      cpu_percent := avg_cpu
      memory_percent := avg_memory
      healthy_replicas := max 1 (pyInt avg_healthy)
      total_replicas := max 1 (pyInt avg_total) }

/-- `AutoScaler._calculate_scale_factors`: one factor per enabled metric, in
dict insertion order; the emergency sentinel replaces everything when no
healthy replicas are reported. -/
def calculateScaleFactors (metrics : ScalingMetrics) (policy : ScalingPolicy) :
    List (String × ℚ) :=
  if metrics.healthy_replicas = 0 then [("no_healthy", EMERGENCY_SCALE_FACTOR)]
  else if metrics.healthy_replicas ≤ 0 then [("invalid_replicas", EMERGENCY_SCALE_FACTOR)]
  else
    (if 0 < policy.target_rps_per_replica then
      [("rps", metrics.rps / (metrics.healthy_replicas : ℚ) / (policy.target_rps_per_replica : ℚ))]
    else []) ++
    (if 0 < policy.max_p95_latency_ms ∧ 0 < metrics.p95_latency_ms then
      [("latency", metrics.p95_latency_ms / (policy.max_p95_latency_ms : ℚ))]
    else []) ++
    (if 0 < policy.max_conn_per_replica then
      [("connections",
        (metrics.active_connections : ℚ) / (metrics.healthy_replicas : ℚ) / (policy.max_conn_per_replica : ℚ))]
    else []) ++
    (if 0 < policy.max_cpu_percent ∧ 0 < metrics.cpu_percent then
      [("cpu", metrics.cpu_percent / policy.max_cpu_percent)]
    else []) ++
    (if 0 < policy.max_memory_percent ∧ 0 < metrics.memory_percent then
      [("memory", metrics.memory_percent / policy.max_memory_percent)]
    else [])

/-- The running maximum `max_factor = max(max_factor, factor)` accumulated
from `0.0` over the factors in order. -/
def maxFactor (factors : List (String × ℚ)) : ℚ :=
  factors.foldl (fun m p => max m p.2) 0

/-- The metrics whose factor strictly exceeds the scale-out threshold
(the code appends `"{name}={factor:.2f}"`; we keep the name). -/
def triggeredBy (factors : List (String × ℚ)) (scale_out_threshold : ℚ) : List String :=
  (factors.filter fun p => scale_out_threshold < p.2).map Prod.fst

/-- Python `key in scale_factors` on the factors dict. -/
def hasKey (factors : List (String × ℚ)) (k : String) : Bool :=
  factors.any fun p => p.1 = k

/-- `AutoScaler._make_scaling_decision` together with its updates of
`self.scale_in_stable_periods[app_name]`: takes the current counter value and
returns the decision and the new counter value.  `_reset_scale_in_counter`
sets the counter to 0. -/
def makeScalingDecision (current_replicas : Int) (scale_factors : List (String × ℚ))
    (policy : ScalingPolicy) (metrics : ScalingMetrics) (stable_periods : Nat) :
    ScalingDecision × Nat :=
  let scale_out_threshold : ℚ := (policy.scale_out_threshold_pct : ℚ) / 100
  let max_factor := maxFactor scale_factors
  let triggered_by := triggeredBy scale_factors scale_out_threshold
  if hasKey scale_factors "no_healthy" ∨ hasKey scale_factors "invalid_replicas" then
    let target_replicas := min (current_replicas + 1) policy.max_replicas
    (⟨decide (current_replicas < target_replicas), target_replicas, current_replicas,
      .emergencyNoHealthy, ["no_healthy"], some metrics⟩, 0)
  else if scale_out_threshold < max_factor ∧ current_replicas < policy.max_replicas then
    let desired := max ⌈(current_replicas : ℚ) * max_factor⌉ (current_replicas + 1)
    let target := min desired policy.max_replicas
    if current_replicas < target then
      (⟨true, target, current_replicas, .scaleOut, triggered_by, some metrics⟩, 0)
    else
      (⟨false, target, current_replicas, .withinThresholds, triggered_by, some metrics⟩, 0)
  else if max_factor < (policy.scale_in_threshold_pct : ℚ) / 100 ∧
      policy.min_replicas < current_replicas then
    let c1 := stable_periods + 1
    if MIN_SCALE_IN_STABLE_PERIODS ≤ c1 then
      let target := max (current_replicas - 1) policy.min_replicas
      if target < current_replicas then
        (⟨true, target, current_replicas, .scaleIn, triggered_by, some metrics⟩, 0)
      else
        (⟨false, target, current_replicas, .withinThresholds, triggered_by, some metrics⟩, c1)
    else
      (⟨false, current_replicas, current_replicas, .waitingStability, triggered_by, some metrics⟩, c1)
  else
    (⟨false, current_replicas, current_replicas, .withinThresholds, triggered_by, some metrics⟩, 0)

/-- The per-call inputs of `AutoScaler.evaluate_scaling`: the app's policy
entry (`self.policies.get(app_name)`), the mode, the current replica count,
the wall clock, `self.last_scale_time.get(app_name, 0)` and the metric
history at call time. -/
structure EvalInput where
  policy : Option ScalingPolicy
  mode : String
  current_replicas : Int
  now : ℚ
  last_scale_time : ℚ
  history : MetricsHistory

/-- A no-op decision with the given reason. -/
def noScaleDecision (current : Int) (r : Reason) : ScalingDecision :=
  ⟨false, current, current, r, [], none⟩

/-- `AutoScaler.evaluate_scaling`, with the scale-in stability counter passed
and returned explicitly.  Branches, in source order: manual mode, no policy,
minimum-replica enforcement, cooldown (with its nested but unreachable
minimum check), metric aggregation, `_make_scaling_decision`, and the final
minimum-replica safety check. -/
def evaluate_scaling (inp : EvalInput) (stable_periods : Nat) : ScalingDecision × Nat :=
  if inp.mode = "manual" then
    (noScaleDecision inp.current_replicas .manualMode, stable_periods)
  else
    match inp.policy with
    | none => (noScaleDecision inp.current_replicas .noPolicy, stable_periods)
    | some policy =>
      if inp.current_replicas < policy.min_replicas then
        (⟨true, policy.min_replicas, inp.current_replicas, .belowMinimum,
          ["min_replicas_enforcement"], none⟩, 0)
      else if inp.now - inp.last_scale_time < (policy.cooldown_seconds : ℚ) then
        if inp.current_replicas < policy.min_replicas then
          (⟨true, policy.min_replicas, inp.current_replicas, .belowMinimumBypassCooldown,
            ["min_replicas_enforcement"], none⟩, 0)
        else (noScaleDecision inp.current_replicas .inCooldown, stable_periods)
      else
        match getRecentMetrics inp.history inp.now policy.window_seconds with
        | none =>
          if inp.current_replicas < policy.min_replicas then
            (⟨true, policy.min_replicas, inp.current_replicas, .noMetricsBelowMinimum,
              ["min_replicas_enforcement"], none⟩, 0)
          else (noScaleDecision inp.current_replicas .noMetrics, stable_periods)
        | some metrics =>
          let scale_factors := calculateScaleFactors metrics policy
          let dc := makeScalingDecision inp.current_replicas scale_factors policy metrics stable_periods
          if dc.1.target_replicas < policy.min_replicas then
            (⟨true, policy.min_replicas, inp.current_replicas, .enforceMinimum,
              dc.1.triggered_by ++ ["min_replicas_enforcement"], dc.1.metrics⟩, dc.2)
          else dc

/-- The scale-in stability counter after a sequence of `evaluate_scaling`
calls, starting from counter value `c`. -/
def runStable (l : List EvalInput) (c : Nat) : Nat :=
  l.foldl (fun c inp => (evaluate_scaling inp c).2) c

/-! ## Leader lease (`controller/cluster.py`) -/

/-- The singleton `leader_lease` row (`id = 1`). -/
structure LeaseRow where
  leader_id : String
  term : Int
  acquired_at : ℚ
  expires_at : ℚ
  renewed_at : ℚ
  hostname : String
  api_url : String
deriving DecidableEq

/-- The SQL statement of `_try_acquire_leadership`:
`INSERT INTO leader_lease ... VALUES (1, node_id, term, now, now + ttl, now, hostname, api_url)
ON CONFLICT (id) DO UPDATE SET ... WHERE leader_lease.expires_at <= CURRENT_TIMESTAMP OR
leader_lease.term < EXCLUDED.term`.  Returns the table state after the
statement and `cursor.rowcount`. -/
def acquireLeaseUpsert (row : Option LeaseRow) (now : ℚ) (node_id : String) (term : Int)
    (lease_ttl : ℚ) (hostname api_url : String) : Option LeaseRow × Nat :=
  let newRow : LeaseRow :=
    ⟨node_id, term, now, now + lease_ttl, now, hostname, api_url⟩
  match row with
  | none => (some newRow, 1)
  | some r =>
    if r.expires_at ≤ now ∨ r.term < term then (some newRow, 1) else (some r, 0)

/-- `DistributedController._try_acquire_leadership`: run the upsert, commit
and return `True` iff `cursor.rowcount > 0` (otherwise roll back, which
leaves the row unchanged, and return `False`). -/
def tryAcquireLeadership (row : Option LeaseRow) (now : ℚ) (node_id : String) (term : Int)
    (lease_ttl : ℚ) (hostname api_url : String) : Option LeaseRow × Bool :=
  let res := acquireLeaseUpsert row now node_id term lease_ttl hostname api_url
  if 0 < res.2 then (res.1, true) else (row, false)

/-- The SQL statement of `_release_leadership`:
`DELETE FROM leader_lease WHERE leader_id = %s AND term = %s` with the
releasing node's id and current term. -/
def releaseLeaseDelete (row : Option LeaseRow) (node_id : String) (term : Int) :
    Option LeaseRow :=
  match row with
  | none => none
  | some r => if r.leader_id = node_id ∧ r.term = term then none else some r

/-! ## Replica manager (`controller/manager.py`) -/

/-- The state `AppManager.scale` manipulates for one app: the replica indices
of the tracked `ContainerInstance` list, in list (insertion) order, and the
indices of all existing labelled containers of that app — container
`<app>-<i>` exists iff `i ∈ existing`.  Every tracked instance is an existing
container. -/
structure ManagerState where
  tracked : List Nat
  existing : List Nat
deriving DecidableEq

/-- `AppManager._start_container(app, spec, i)`: `containers.create` with
`name = f"{app}-{i}"` raises when a container of that name already exists; the
exception is caught and `None` is returned, leaving the instance list
unchanged.  Otherwise the container is created and the instance appended to
`self.instances[app]`. -/
def startContainer (s : ManagerState) (i : Nat) : ManagerState × Bool :=
  if s.existing.contains i then (s, false)
  else ({ tracked := s.tracked ++ [i], existing := s.existing ++ [i] }, true)

/-- `AppManager.scale(app, n)` (container bookkeeping): no-op when `n` equals
the tracked count; when larger, `for i in range(current_replicas, replicas):
self._start_container(app, spec, i)`; when smaller, `_stop_container` each of
`self.instances[app][replicas:]` and keep `self.instances[app][:replicas]`. -/
def scaleApp (s : ManagerState) (n : Nat) : ManagerState :=
  let current := s.tracked.length
  if n = current then s
  else if current < n then
    (List.range' current (n - current)).foldl (fun st i => (startContainer st i).1) s
  else
    let toRemove := s.tracked.drop n
    { tracked := s.tracked.take n
      existing := toRemove.foldl (fun ex i => ex.erase i) s.existing }

/-! ## State store (`state/db.py`) -/

/-- Reachability of the two PostgreSQL endpoints and the
`_primary_failed` failover flag of `PostgreSQLManager`.  The primary pool
always exists (required at startup); `has_replica` records whether the
optional replica pool was created. -/
structure StoreEnv where
  primary_ok : Bool
  has_replica : Bool
  replica_ok : Bool
  primary_failed_flag : Bool
deriving DecidableEq

/-- Which pool a connection was drawn from. -/
inductive Conn where
  | primary
  | replica
deriving DecidableEq

/-- `PostgreSQLManager._get_connection(write=True)`: prefer the primary
unless it is marked failed (a failure marks it and re-raises, wrapped as
`DatabaseError`); with the primary marked failed, fall back to the replica;
raise `DatabaseError` when nothing is available. -/
def getConnectionWrite (env : StoreEnv) : Except String Conn :=
  if ¬env.primary_failed_flag then
    if env.primary_ok then .ok .primary
    else .error "Database operation failed"
  else if env.has_replica then
    if env.replica_ok then .ok .replica
    else .error "Database operation failed"
  else .error "NO DATABASE AVAILABLE FOR WRITE OPERATIONS"

/-- `PostgreSQLManager._get_connection(write=False)`: prefer the replica; a
replica failure is swallowed and the primary is tried next; raise
`DatabaseError` when nothing is available. -/
def getConnectionRead (env : StoreEnv) : Except String Conn :=
  if env.has_replica ∧ env.replica_ok then .ok .replica
  else if ¬env.primary_failed_flag then
    if env.primary_ok then .ok .primary
    else .error "Database operation failed"
  else .error "NO DATABASE AVAILABLE FOR READ OPERATIONS"

/-- No database endpoint is reachable. -/
def storeDown (env : StoreEnv) : Prop := env.primary_ok = false ∧ env.replica_ok = false

/-- Application record (`AppRecord` in `state/db.py`); the JSONB `spec` is
modelled by its serialized string. -/
structure AppRecord where
  name : String
  spec : String
  status : String
  created_at : ℚ
  updated_at : ℚ
  replicas : Int := 0
  last_scaled_at : Option ℚ := none
  mode : String := "auto"
deriving DecidableEq

/-- The `ON CONFLICT (name) DO UPDATE` upsert of `save_app` on the `apps`
table (the update does not touch `created_at`). -/
def upsertApp (t : List AppRecord) (rec : AppRecord) : List AppRecord :=
  if t.any (fun r => r.name = rec.name) then
    t.map fun r =>
      if r.name = rec.name then
        { r with spec := rec.spec, status := rec.status, updated_at := rec.updated_at,
                 replicas := rec.replicas, last_scaled_at := rec.last_scaled_at,
                 mode := rec.mode }
      else r
  else t ++ [rec]

/-- `PostgreSQLManager.save_app`: any exception — including the
`DatabaseError` raised by `_get_connection` when no endpoint is reachable —
is caught, logged and turned into the return value `False`. -/
def save_app (env : StoreEnv) (t : List AppRecord) (rec : AppRecord) :
    List AppRecord × Bool :=
  match getConnectionWrite env with
  | .error _ => (t, false)
  | .ok _ => (upsertApp t rec, true)

/-- `PostgreSQLManager.get_app`: returns `None` both when the row does not
exist and when any exception occurs (the `except` clause falls through to the
final `return None`). -/
def get_app (env : StoreEnv) (t : List AppRecord) (name : String) : Option AppRecord :=
  match getConnectionRead env with
  | .error _ => none
  | .ok _ => t.find? fun r => r.name = name

/-- `PostgreSQLManager.list_apps` without a status filter: all rows ordered
by name, or `[]` on any exception. -/
def list_apps (env : StoreEnv) (t : List AppRecord) : List AppRecord :=
  match getConnectionRead env with
  | .error _ => []
  | .ok _ => t.mergeSort fun a b => decide (a.name ≤ b.name)

/-- `PostgreSQLManager.delete_app`: delete the row and return
`cursor.rowcount > 0`, or `False` on any exception. -/
def delete_app (env : StoreEnv) (t : List AppRecord) (name : String) :
    List AppRecord × Bool :=
  match getConnectionWrite env with
  | .error _ => (t, false)
  | .ok _ => (t.filter (fun r => r.name ≠ name), t.any fun r => r.name = name)

/-- `PostgreSQLManager.update_app_status`: update the row and return
`cursor.rowcount > 0`, or `False` on any exception. -/
def update_app_status (env : StoreEnv) (t : List AppRecord) (name status : String)
    (now : ℚ) : List AppRecord × Bool :=
  match getConnectionWrite env with
  | .error _ => (t, false)
  | .ok _ =>
    (t.map (fun r => if r.name = name then { r with status := status, updated_at := now } else r),
     t.any fun r => r.name = name)

/-- An `evaluate_scaling` call observes a sub-threshold window when it runs
to the factor computation (auto mode, policy present, current count at least
the minimum, cooldown elapsed, nonempty metric window), no emergency sentinel
is present, the scale-out branch does not apply, and the maximum factor is
below `scale_in_threshold_pct / 100` with the current count above the
minimum — exactly the cases in which `_make_scaling_decision` increments the
scale-in stability counter (or emits a scale-in decision). -/
def observesSubThreshold (inp : EvalInput) : Bool :=
  if inp.mode = "manual" then false
  else
    match inp.policy with
    | none => false
    | some policy =>
      if inp.current_replicas < policy.min_replicas then false
      else if inp.now - inp.last_scale_time < (policy.cooldown_seconds : ℚ) then false
      else
        match getRecentMetrics inp.history inp.now policy.window_seconds with
        | none => false
        | some metrics =>
          let f := calculateScaleFactors metrics policy
          decide (¬ (hasKey f "no_healthy" = true ∨ hasKey f "invalid_replicas" = true) ∧
            ¬ ((policy.scale_out_threshold_pct : ℚ) / 100 < maxFactor f ∧
               inp.current_replicas < policy.max_replicas) ∧
            maxFactor f < (policy.scale_in_threshold_pct : ℚ) / 100 ∧
            policy.min_replicas < inp.current_replicas)

/-- The parameter combinations that the specification's data model forbids
for a scaling policy (C9), written from the spec's words: besides the checks
the code makes, both thresholds must lie in the interval (0, 100]. -/
def specForbiddenPolicy (p : ScalingPolicy) : Prop :=
  p.min_replicas < 1 ∨ p.max_replicas < p.min_replicas ∨
  p.scale_out_threshold_pct ≤ p.scale_in_threshold_pct ∨
  p.scale_in_threshold_pct ≤ 0 ∨ 100 < p.scale_in_threshold_pct ∨
  p.scale_out_threshold_pct ≤ 0 ∨ 100 < p.scale_out_threshold_pct ∨
  p.window_seconds < 1 ∨ p.cooldown_seconds < 0 ∨
  p.target_rps_per_replica < 0 ∨ p.max_p95_latency_ms < 0 ∨
  p.max_conn_per_replica < 0 ∨
  p.max_cpu_percent ≤ 0 ∨ 100 < p.max_cpu_percent ∨
  p.max_memory_percent ≤ 0 ∨ 100 < p.max_memory_percent

/-! ## Concrete instances used by witnesses and counterexamples -/

/-- A metric history holding a single healthy-replica sample of value `v`
taken at time `t` (as produced by one `add_metrics` call whose other readings
are not consulted). -/
def healthyOnlyHistory (t v : ℚ) : MetricsHistory := { healthy_replicas := [⟨t, v⟩] }

/-- Evaluation input for an app with the default policy in auto mode:
current replica count `cur`, clock `now`, last scale time 0, and a single
healthy-replica sample of value `v` at time `t`. -/
def sampleInput (cur : Int) (now t v : ℚ) : EvalInput :=
  { policy := some {}, mode := "auto", current_replicas := cur,
    now := now, last_scale_time := 0, history := healthyOnlyHistory t v }

/-- Evaluation input like `sampleInput` but with an empty metric window. -/
def emptyHistoryInput (cur : Int) (now : ℚ) : EvalInput :=
  { policy := some {}, mode := "auto", current_replicas := cur,
    now := now, last_scale_time := 0, history := {} }

/-- Evaluation input that drives the scale-out path of the default policy:
2 current replicas, one rps sample of 100 and one healthy-replica sample of 1
inside the window. -/
def scaleOutInput : EvalInput :=
  { policy := some {}, mode := "auto", current_replicas := 2,
    now := 50, last_scale_time := 0,
    history := { rps := [⟨45, 100⟩], healthy_replicas := [⟨45, 1⟩] } }

/-! ## Helper lemmas -/

/-- The aggregation clamp: whenever `_get_recent_metrics` returns metrics,
the aggregated healthy-replica count is at least 1. -/
theorem getRecentMetrics_healthy_pos (history : MetricsHistory) (now : ℚ)
    (w : Int) (m : ScalingMetrics) (hm : getRecentMetrics history now w = some m) :
    1 ≤ m.healthy_replicas := by
  simp only [getRecentMetrics] at hm
  split at hm
  · exact absurd hm (by simp)
  · simp only [Option.some.injEq] at hm
    subst hm
    exact le_max_left _ _

/-- With a positive healthy-replica count, `_calculate_scale_factors` never
produces the emergency sentinel keys. -/
theorem calculateScaleFactors_no_emergency (m : ScalingMetrics) (p : ScalingPolicy)
    (h : 0 < m.healthy_replicas) :
    hasKey (calculateScaleFactors m p) "no_healthy" = false ∧
    hasKey (calculateScaleFactors m p) "invalid_replicas" = false := by
  have h0 : ¬ m.healthy_replicas = 0 := by omega
  have h1 : ¬ m.healthy_replicas ≤ 0 := by omega
  simp only [calculateScaleFactors, if_neg h0, if_neg h1]
  split_ifs <;> simp [hasKey]

/-- Bounds on the target emitted by `_make_scaling_decision`: never below
`min_replicas`, and never above the larger of the current count and
`max_replicas`. -/
theorem makeScalingDecision_bounds (cur : Int) (factors : List (String × ℚ))
    (p : ScalingPolicy) (m : ScalingMetrics) (c : Nat)
    (hminmax : p.min_replicas ≤ p.max_replicas) (hcur : p.min_replicas ≤ cur) :
    p.min_replicas ≤ (makeScalingDecision cur factors p m c).1.target_replicas ∧
    (makeScalingDecision cur factors p m c).1.target_replicas ≤ max cur p.max_replicas := by
  simp only [makeScalingDecision]
  split
  · dsimp only
    omega
  · split
    · split <;> (dsimp only; omega)
    · split
      · split
        · split <;> (dsimp only; omega)
        · dsimp only
          omega
      · dsimp only
        omega

/-- `_make_scaling_decision` always reports the current replica count it was
given. -/
theorem makeScalingDecision_current (cur : Int) (factors : List (String × ℚ))
    (p : ScalingPolicy) (m : ScalingMetrics) (c : Nat) :
    (makeScalingDecision cur factors p m c).1.current_replicas = cur := by
  simp only [makeScalingDecision]
  split
  · rfl
  · split
    · split <;> rfl
    · split
      · split
        · split <;> rfl
        · rfl
      · rfl

/-- Characterization of a scale-in emission by `_make_scaling_decision`: it
requires the counter-incrementing branch (no emergency, no scale-out, max
factor below the scale-in threshold, current above minimum) and an incoming
counter of at least `MIN_SCALE_IN_STABLE_PERIODS - 1 = 2`; it reduces the
target by exactly one and resets the counter. -/
theorem makeScalingDecision_scale_in_emission (cur : Int)
    (factors : List (String × ℚ)) (p : ScalingPolicy) (m : ScalingMetrics) (c : Nat)
    (hs : (makeScalingDecision cur factors p m c).1.should_scale = true)
    (ht : (makeScalingDecision cur factors p m c).1.target_replicas < cur) :
    (hasKey factors "no_healthy" = false ∧ hasKey factors "invalid_replicas" = false) ∧
    ¬ ((p.scale_out_threshold_pct : ℚ) / 100 < maxFactor factors ∧
       cur < p.max_replicas) ∧
    maxFactor factors < (p.scale_in_threshold_pct : ℚ) / 100 ∧
    p.min_replicas < cur ∧ 2 ≤ c ∧
    (makeScalingDecision cur factors p m c).1.target_replicas = cur - 1 ∧
    (makeScalingDecision cur factors p m c).2 = 0 := by
  by_cases hkey : hasKey factors "no_healthy" = true ∨ hasKey factors "invalid_replicas" = true
  · exfalso
    simp only [makeScalingDecision, if_pos hkey] at hs ht
    simp only [decide_eq_true_eq] at hs
    omega
  · by_cases hout : (p.scale_out_threshold_pct : ℚ) / 100 < maxFactor factors ∧
        cur < p.max_replicas
    · exfalso
      simp only [makeScalingDecision, if_neg hkey, if_pos hout] at hs ht
      by_cases htar : cur <
          min (max ⌈(cur : ℚ) * maxFactor factors⌉ (cur + 1)) p.max_replicas
      · simp only [if_pos htar] at ht
        omega
      · simp only [if_neg htar] at hs
        exact absurd hs (by simp)
    · by_cases hin : maxFactor factors < (p.scale_in_threshold_pct : ℚ) / 100 ∧
          p.min_replicas < cur
      · simp only [makeScalingDecision, if_neg hkey, if_neg hout, if_pos hin] at hs ht ⊢
        by_cases hc3 : MIN_SCALE_IN_STABLE_PERIODS ≤ c + 1
        · simp only [if_pos hc3] at hs ht ⊢
          by_cases htc : max (cur - 1) p.min_replicas < cur
          · simp only [if_pos htc] at ht ⊢
            have h3 : MIN_SCALE_IN_STABLE_PERIODS = 3 := rfl
            simp only [not_or, Bool.not_eq_true] at hkey
            exact ⟨⟨hkey.1, hkey.2⟩, hout, hin.1, hin.2, by omega, by omega, by trivial⟩
          · simp only [if_neg htc] at hs
            exact absurd hs (by simp)
        · simp only [if_neg hc3] at hs
          exact absurd hs (by simp)
      · exfalso
        simp only [makeScalingDecision, if_neg hkey, if_neg hout, if_neg hin] at hs
        exact absurd hs (by simp)

/-- One `evaluate_scaling` call increases the scale-in stability counter by at
most 1, and only when it observes a sub-threshold window. -/
theorem evaluate_stable_le (inp : EvalInput) (c : Nat) :
    (evaluate_scaling inp c).2 ≤ if observesSubThreshold inp then c + 1 else c := by
  by_cases hmode : inp.mode = "manual"
  · simp [evaluate_scaling, observesSubThreshold, hmode]
  · cases hpol : inp.policy with
    | none => simp [evaluate_scaling, observesSubThreshold, hmode, hpol]
    | some policy =>
      by_cases hlt : inp.current_replicas < policy.min_replicas
      · simp [evaluate_scaling, observesSubThreshold, hmode, hpol, hlt]
      · by_cases hcd : inp.now - inp.last_scale_time < (policy.cooldown_seconds : ℚ)
        · simp [evaluate_scaling, observesSubThreshold, hmode, hpol, hlt, hcd]
        · cases hm : getRecentMetrics inp.history inp.now policy.window_seconds with
          | none => simp [evaluate_scaling, observesSubThreshold, hmode, hpol, hlt, hcd, hm]
          | some m =>
            simp only [evaluate_scaling, observesSubThreshold, hmode, hpol, hlt, hcd, hm,
              if_neg hlt, if_neg hcd, String.reduceEq, reduceIte]
            have hcnt : (if (makeScalingDecision inp.current_replicas
                (calculateScaleFactors m policy) policy m c).1.target_replicas <
                  policy.min_replicas
                then (⟨true, policy.min_replicas, inp.current_replicas, .enforceMinimum,
                  (makeScalingDecision inp.current_replicas
                    (calculateScaleFactors m policy) policy m c).1.triggered_by ++
                    ["min_replicas_enforcement"],
                  (makeScalingDecision inp.current_replicas
                    (calculateScaleFactors m policy) policy m c).1.metrics⟩,
                  (makeScalingDecision inp.current_replicas
                    (calculateScaleFactors m policy) policy m c).2)
                else makeScalingDecision inp.current_replicas
                  (calculateScaleFactors m policy) policy m c).2 =
                (makeScalingDecision inp.current_replicas
                  (calculateScaleFactors m policy) policy m c).2 := by
              split <;> rfl
            rw [hcnt]
            by_cases hkey : hasKey (calculateScaleFactors m policy) "no_healthy" = true ∨
                hasKey (calculateScaleFactors m policy) "invalid_replicas" = true
            · simp only [makeScalingDecision, if_pos hkey, decide_eq_true_eq]
              split <;> omega
            · by_cases hout : (policy.scale_out_threshold_pct : ℚ) / 100 <
                  maxFactor (calculateScaleFactors m policy) ∧
                  inp.current_replicas < policy.max_replicas
              · simp only [makeScalingDecision, if_neg hkey, if_pos hout]
                split <;> (split <;> omega)
              · by_cases hin : maxFactor (calculateScaleFactors m policy) <
                    (policy.scale_in_threshold_pct : ℚ) / 100 ∧
                    policy.min_replicas < inp.current_replicas
                · simp only [makeScalingDecision, if_neg hkey, if_neg hout, if_pos hin,
                    decide_eq_true_eq]
                  have hobs : (¬ (hasKey (calculateScaleFactors m policy) "no_healthy" = true ∨
                      hasKey (calculateScaleFactors m policy) "invalid_replicas" = true) ∧
                      ¬ ((policy.scale_out_threshold_pct : ℚ) / 100 <
                        maxFactor (calculateScaleFactors m policy) ∧
                        inp.current_replicas < policy.max_replicas) ∧
                      maxFactor (calculateScaleFactors m policy) <
                        (policy.scale_in_threshold_pct : ℚ) / 100 ∧
                      policy.min_replicas < inp.current_replicas) := ⟨hkey, hout, hin.1, hin.2⟩
                  simp only [if_pos hobs]
                  split
                  · split <;> omega
                  · omega
                · simp only [makeScalingDecision, if_neg hkey, if_neg hout, if_neg hin,
                    decide_eq_true_eq]
                  split <;> omega

/-- Starting from 0, the stability counter never exceeds the number of
sub-threshold observations in the evaluation sequence. -/
theorem runStable_le_countP (l : List EvalInput) :
    ∀ c : Nat, runStable l c ≤ c + l.countP observesSubThreshold := by
  induction l with
  | nil => intro c; simp [runStable]
  | cons a t ih =>
    intro c
    have h1 := evaluate_stable_le a c
    have h2 := ih ((evaluate_scaling a c).2)
    simp only [runStable, List.foldl_cons] at h2 ⊢
    rw [List.countP_cons]
    by_cases hobs : observesSubThreshold a = true
    · simp only [if_pos hobs] at h1
      simp only [hobs, if_pos]
      omega
    · simp only [if_neg hobs] at h1
      simp only [Bool.not_eq_true] at hobs
      simp only [hobs]
      omega

/-- Scale-in emissions of `evaluate_scaling`: an emitted decision that lowers
the replica count requires an incoming counter of at least 2 and a
sub-threshold observation, lowers the target by exactly one, and resets the
counter. -/
theorem evaluate_scale_in_emission (inp : EvalInput) (p : ScalingPolicy) (c : Nat)
    (hpol : inp.policy = some p) (hminmax : p.min_replicas ≤ p.max_replicas)
    (hs : (evaluate_scaling inp c).1.should_scale = true)
    (ht : (evaluate_scaling inp c).1.target_replicas <
      (evaluate_scaling inp c).1.current_replicas) :
    observesSubThreshold inp = true ∧ 2 ≤ c ∧
    (evaluate_scaling inp c).1.target_replicas = inp.current_replicas - 1 ∧
    (evaluate_scaling inp c).2 = 0 := by
  by_cases hmode : inp.mode = "manual"
  · exfalso
    simp [evaluate_scaling, hmode, noScaleDecision] at hs
  · by_cases hlt : inp.current_replicas < p.min_replicas
    · exfalso
      simp only [evaluate_scaling, hmode, hpol, if_pos hlt, String.reduceEq, reduceIte] at ht
      omega
    · by_cases hcd : inp.now - inp.last_scale_time < (p.cooldown_seconds : ℚ)
      · exfalso
        simp only [evaluate_scaling, hmode, hpol, if_neg hlt, if_pos hcd, String.reduceEq,
          reduceIte, noScaleDecision] at hs
        exact Bool.noConfusion hs
      · cases hm : getRecentMetrics inp.history inp.now p.window_seconds with
        | none =>
          exfalso
          simp only [evaluate_scaling, hmode, hpol, if_neg hlt, if_neg hcd, hm,
            String.reduceEq, reduceIte, noScaleDecision] at hs
          exact Bool.noConfusion hs
        | some m =>
          have hbnd := makeScalingDecision_bounds inp.current_replicas
            (calculateScaleFactors m p) p m c hminmax (by omega)
          have henf : ¬ (makeScalingDecision inp.current_replicas
              (calculateScaleFactors m p) p m c).1.target_replicas < p.min_replicas := by
            omega
          simp only [evaluate_scaling, hmode, hpol, if_neg hlt, if_neg hcd, hm,
            String.reduceEq, reduceIte, if_neg henf] at hs ht ⊢
          rw [makeScalingDecision_current] at ht
          have he := makeScalingDecision_scale_in_emission inp.current_replicas
            (calculateScaleFactors m p) p m c hs ht
          refine ⟨?_, he.2.2.2.2.1, he.2.2.2.2.2.1, he.2.2.2.2.2.2⟩
          simp only [observesSubThreshold, hmode, hpol, if_neg hlt, if_neg hcd, hm,
            String.reduceEq, reduceIte, decide_eq_true_eq]
          refine ⟨?_, he.2.1, he.2.2.1, he.2.2.2.1⟩
          simp [he.1.1, he.1.2]

/-! ## Theorems -/

/-- C1: the lease acquisition upsert of `_try_acquire_leadership` inserts the
singleton row when none exists, overwrites an existing row exactly when it is
expired (`expires_at ≤ now`) or carries a lower term, leaves the row unchanged
and returns `false` in every other case, and derives its boolean result from
the number of rows affected. -/
theorem c1_try_acquire_leadership_fenced_upsert (row : Option LeaseRow) (now : ℚ)
    (node_id : String) (term : Int) (ttl : ℚ) (hostname api_url : String) :
    ((tryAcquireLeadership row now node_id term ttl hostname api_url).2 = true ↔
      row = none ∨ ∃ r, row = some r ∧ (r.expires_at ≤ now ∨ r.term < term)) ∧
    ((tryAcquireLeadership row now node_id term ttl hostname api_url).2 = false →
      (tryAcquireLeadership row now node_id term ttl hostname api_url).1 = row) ∧
    ((tryAcquireLeadership row now node_id term ttl hostname api_url).2 = true →
      (tryAcquireLeadership row now node_id term ttl hostname api_url).1 =
        some ⟨node_id, term, now, now + ttl, now, hostname, api_url⟩) ∧
    (tryAcquireLeadership row now node_id term ttl hostname api_url).2 =
      decide (0 < (acquireLeaseUpsert row now node_id term ttl hostname api_url).2) := by
  match row with
  | none => simp [tryAcquireLeadership, acquireLeaseUpsert]
  | some r =>
    by_cases h : r.expires_at ≤ now ∨ r.term < term
    · simp [tryAcquireLeadership, acquireLeaseUpsert, h]
    · simp [tryAcquireLeadership, acquireLeaseUpsert, h]

/-- Witness for C1 at a concrete input: with no existing row, the candidate
acquires the lease. -/
theorem c1_try_acquire_leadership_fenced_upsert_witness :
    (tryAcquireLeadership none 0 "node-a" 1 30 "host-a" "url-a").2 = true :=
  (c1_try_acquire_leadership_fenced_upsert none 0 "node-a" 1 30 "host-a" "url-a").1.mpr
    (Or.inl rfl)

/-- C10: the voluntary release in `_release_leadership` deletes the lease row
exactly when the stored `leader_id` and `term` both equal the releasing
node's id and current term; in particular, once another node has acquired the
lease (different `leader_id`, or a different term), the successor's row is
left unchanged. -/
theorem c10_release_leadership_fenced (r : LeaseRow) (node_id : String) (term : Int) :
    (releaseLeaseDelete (some r) node_id term = none ↔
      r.leader_id = node_id ∧ r.term = term) ∧
    (r.leader_id ≠ node_id ∨ r.term ≠ term →
      releaseLeaseDelete (some r) node_id term = some r) := by
  by_cases h : r.leader_id = node_id ∧ r.term = term
  · simp [releaseLeaseDelete, h]
  · simp [releaseLeaseDelete, h]

/-- Witness for C10 at a concrete input: node `node-a` releasing with term 1
does not delete a lease now held by `node-b` at term 2. -/
theorem c10_release_leadership_fenced_witness :
    releaseLeaseDelete (some ⟨"node-b", 2, 0, 30, 0, "host-b", "url-b"⟩) "node-a" 1 =
      some ⟨"node-b", 2, 0, 30, 0, "host-b", "url-b"⟩ :=
  (c10_release_leadership_fenced ⟨"node-b", 2, 0, 30, 0, "host-b", "url-b"⟩ "node-a" 1).2
    (Or.inl (by simp))

/-- C2 (amended): with a configured (validated) policy in auto mode, every
decision emitted by `evaluate_scaling` has `min_replicas ≤ target`, but the
upper bound only holds in the relaxed form
`target ≤ max current_replicas max_replicas`: the final clamp of the code
enforces the minimum only, so when the current count exceeds `max_replicas`
a decision may carry a target above `max_replicas`. -/
theorem c2_amended_min_bound_and_relaxed_max (inp : EvalInput) (p : ScalingPolicy)
    (c : Nat) (hmode : inp.mode = "auto") (hpol : inp.policy = some p)
    (hminmax : p.min_replicas ≤ p.max_replicas) :
    p.min_replicas ≤ (evaluate_scaling inp c).1.target_replicas ∧
    (evaluate_scaling inp c).1.target_replicas ≤ max inp.current_replicas p.max_replicas := by
  simp only [evaluate_scaling, hmode, hpol, String.reduceEq, reduceIte]
  by_cases hlt : inp.current_replicas < p.min_replicas
  · simp only [if_pos hlt]
    omega
  · simp only [if_neg hlt]
    split
    · simp only [noScaleDecision]
      omega
    · split
      · simp only [noScaleDecision]
        omega
      · rename_i m hm
        have hb := makeScalingDecision_bounds inp.current_replicas
          (calculateScaleFactors m p) p m c hminmax (by omega)
        split
        · omega
        · exact hb

/-- Witness for C2 (amended) at a concrete input: 3 replicas, default policy,
empty metric window. -/
theorem c2_amended_min_bound_and_relaxed_max_witness :
    ({} : ScalingPolicy).min_replicas ≤
      (evaluate_scaling (emptyHistoryInput 3 50) 0).1.target_replicas ∧
    (evaluate_scaling (emptyHistoryInput 3 50) 0).1.target_replicas ≤
      max (emptyHistoryInput 3 50).current_replicas ({} : ScalingPolicy).max_replicas :=
  c2_amended_min_bound_and_relaxed_max (emptyHistoryInput 3 50) {} 0 rfl rfl (by decide)

/-- C2 counterexample: the claim `min ≤ target ≤ max` for every emitted
decision fails on the max side.  With the default policy (max 5), 10 current
replicas and three consecutive low-load windows, the third evaluation emits a
scale-in decision whose target 9 exceeds `max_replicas = 5`: the code has no
final clamp to the maximum.  (10 replicas with max 5 is reachable, e.g. after
the policy is tightened or after manual scaling in manual mode.) -/
theorem c2_counterexample_target_above_max :
    (evaluate_scaling (sampleInput 10 150 145 10)
      (runStable [sampleInput 10 50 45 10, sampleInput 10 100 95 10] 0)).1.should_scale = true ∧
    (evaluate_scaling (sampleInput 10 150 145 10)
      (runStable [sampleInput 10 50 45 10, sampleInput 10 100 95 10] 0)).1.target_replicas = 9 ∧
    (sampleInput 10 150 145 10).policy = some {} ∧
    ({} : ScalingPolicy).max_replicas <
      (evaluate_scaling (sampleInput 10 150 145 10)
        (runStable [sampleInput 10 50 45 10, sampleInput 10 100 95 10] 0)).1.target_replicas := by
  norm_num +decide [evaluate_scaling, sampleInput, healthyOnlyHistory, getRecentMetrics,
    recentValues, listMean, pyInt, pyMax, calculateScaleFactors, makeScalingDecision,
    maxFactor, triggeredBy, hasKey, noScaleDecision, EMERGENCY_SCALE_FACTOR,
    MIN_SCALE_IN_STABLE_PERIODS, runStable]

/-- C3: with a configured policy in auto mode and the current replica count
strictly below `min_replicas`, `evaluate_scaling` always returns a scaling
decision targeting `min_replicas`: the minimum check precedes the cooldown
check and the metric-window check, so the floor is enforced for every clock
value, every `last_scale_time` and every metric history. -/
theorem c3_below_minimum_bypasses_cooldown_and_metrics (inp : EvalInput)
    (p : ScalingPolicy) (c : Nat) (hmode : inp.mode = "auto")
    (hpol : inp.policy = some p) (hlt : inp.current_replicas < p.min_replicas) :
    (evaluate_scaling inp c).1.should_scale = true ∧
    (evaluate_scaling inp c).1.target_replicas = p.min_replicas := by
  simp [evaluate_scaling, hmode, hpol, hlt]

/-- Witness for C3 at a concrete input: current replicas 1 below minimum 2,
with an empty metric history and a clock still inside the cooldown window. -/
theorem c3_below_minimum_bypasses_cooldown_and_metrics_witness :
    (evaluate_scaling
      { policy := some { min_replicas := 2 }, mode := "auto", current_replicas := 1,
        now := 10, last_scale_time := 0, history := {} } 0).1.should_scale = true ∧
    (evaluate_scaling
      { policy := some { min_replicas := 2 }, mode := "auto", current_replicas := 1,
        now := 10, last_scale_time := 0, history := {} } 0).1.target_replicas = 2 :=
  c3_below_minimum_bypasses_cooldown_and_metrics _ { min_replicas := 2 } 0 rfl rfl
    (by decide)

/-- C6: in auto mode with a policy, current count at least the minimum, the
cooldown elapsed and an aggregated metric window, whenever the maximum scale
factor `F` exceeds `scale_out_threshold_pct / 100` and the current count is
below `max_replicas`, the emitted decision scales out to exactly
`min (max ⌈current * F⌉ (current + 1)) max_replicas`. -/
theorem c6_scale_out_target_formula (inp : EvalInput) (p : ScalingPolicy)
    (m : ScalingMetrics) (c : Nat)
    (hmode : inp.mode = "auto") (hpol : inp.policy = some p)
    (hmin : p.min_replicas ≤ inp.current_replicas)
    (hcd : (p.cooldown_seconds : ℚ) ≤ inp.now - inp.last_scale_time)
    (hm : getRecentMetrics inp.history inp.now p.window_seconds = some m)
    (hF : (p.scale_out_threshold_pct : ℚ) / 100 < maxFactor (calculateScaleFactors m p))
    (hcur : inp.current_replicas < p.max_replicas) :
    (evaluate_scaling inp c).1.should_scale = true ∧
    (evaluate_scaling inp c).1.target_replicas =
      min (max ⌈(inp.current_replicas : ℚ) * maxFactor (calculateScaleFactors m p)⌉
        (inp.current_replicas + 1)) p.max_replicas := by
  have hhp := getRecentMetrics_healthy_pos _ _ _ _ hm
  have hne := calculateScaleFactors_no_emergency m p (by omega)
  have hnm : ¬ inp.current_replicas < p.min_replicas := not_lt.mpr hmin
  have hnc : ¬ (inp.now - inp.last_scale_time < (p.cooldown_seconds : ℚ)) := not_lt.mpr hcd
  have hkey : ¬ (hasKey (calculateScaleFactors m p) "no_healthy" = true ∨
      hasKey (calculateScaleFactors m p) "invalid_replicas" = true) := by
    simp [hne.1, hne.2]
  have htar : inp.current_replicas <
      min (max ⌈(inp.current_replicas : ℚ) * maxFactor (calculateScaleFactors m p)⌉
        (inp.current_replicas + 1)) p.max_replicas := by
    omega
  have hfin : ¬ (min (max ⌈(inp.current_replicas : ℚ) * maxFactor (calculateScaleFactors m p)⌉
      (inp.current_replicas + 1)) p.max_replicas < p.min_replicas) := by
    omega
  simp only [evaluate_scaling, hmode, hpol, String.reduceEq, reduceIte,
    if_neg hnm, if_neg hnc, hm]
  simp only [makeScalingDecision, if_neg hkey, if_pos (And.intro hF hcur),
    if_pos htar, if_neg hfin]
  exact ⟨trivial, trivial⟩

/-- Witness for C6 at a concrete input: default policy, 2 current replicas,
rps 100 over one healthy replica gives factor 2 and a scale-out to
`min (max ⌈2 * 2⌉ 3) 5 = 4`. -/
theorem c6_scale_out_target_formula_witness :
    (evaluate_scaling scaleOutInput 0).1.should_scale = true ∧
    (evaluate_scaling scaleOutInput 0).1.target_replicas = 4 := by
  have hm : getRecentMetrics scaleOutInput.history scaleOutInput.now
      ({} : ScalingPolicy).window_seconds = some ⟨100, 0, 0, 0, 0, 1, 1⟩ := by
    norm_num +decide [scaleOutInput, getRecentMetrics, recentValues, listMean, pyInt, pyMax]
  have hmf : maxFactor (calculateScaleFactors ⟨100, 0, 0, 0, 0, 1, 1⟩ ({} : ScalingPolicy)) = 2 := by
    norm_num +decide [calculateScaleFactors, maxFactor, EMERGENCY_SCALE_FACTOR]
  have h := c6_scale_out_target_formula scaleOutInput {} ⟨100, 0, 0, 0, 0, 1, 1⟩ 0 rfl rfl
    (by decide) (by norm_num [scaleOutInput]) hm (by rw [hmf]; norm_num) (by decide)
  refine ⟨h.1, ?_⟩
  rw [h.2, hmf]
  have hc : (⌈((scaleOutInput.current_replicas : ℚ)) * 2⌉ : ℤ) = 4 := by
    rw [show ((scaleOutInput.current_replicas : ℚ)) * 2 = ((4 : ℤ) : ℚ) by
      norm_num [scaleOutInput], Int.ceil_intCast]
  rw [hc]
  norm_num [scaleOutInput]

/-- C4 (amended): the aggregation step clamps the healthy-replica value to at
least 1, so metrics produced by `_get_recent_metrics` never trigger the
`no_healthy` sentinel; the sentinel branch of `_calculate_scale_factors`
itself fires exactly on a (directly constructed) metrics value with zero
healthy replicas, but is unreachable through `evaluate_scaling`. -/
theorem c4_amended_no_healthy_sentinel_unreachable (history : MetricsHistory)
    (now : ℚ) (w : Int) (m : ScalingMetrics) (p : ScalingPolicy)
    (hm : getRecentMetrics history now w = some m) :
    1 ≤ m.healthy_replicas ∧
    hasKey (calculateScaleFactors m p) "no_healthy" = false ∧
    ∀ m0 : ScalingMetrics, m0.healthy_replicas = 0 →
      calculateScaleFactors m0 p = [("no_healthy", EMERGENCY_SCALE_FACTOR)] := by
  have h1 := getRecentMetrics_healthy_pos _ _ _ _ hm
  refine ⟨h1, (calculateScaleFactors_no_emergency m p (by omega)).1, ?_⟩
  intro m0 h0
  simp [calculateScaleFactors, h0]

/-- Witness for C4 (amended) at a concrete input: a window whose only
healthy-replica sample is 0 aggregates to healthy 1, without the sentinel. -/
theorem c4_amended_no_healthy_sentinel_unreachable_witness :
    1 ≤ (⟨0, 0, 0, 0, 0, 1, 1⟩ : ScalingMetrics).healthy_replicas ∧
    hasKey (calculateScaleFactors ⟨0, 0, 0, 0, 0, 1, 1⟩ {}) "no_healthy" = false :=
  ⟨(c4_amended_no_healthy_sentinel_unreachable (healthyOnlyHistory 45 0) 50 20
      ⟨0, 0, 0, 0, 0, 1, 1⟩ {} (by
        norm_num +decide [healthyOnlyHistory, getRecentMetrics, recentValues,
          listMean, pyInt, pyMax])).1,
   (c4_amended_no_healthy_sentinel_unreachable (healthyOnlyHistory 45 0) 50 20
      ⟨0, 0, 0, 0, 0, 1, 1⟩ {} (by
        norm_num +decide [healthyOnlyHistory, getRecentMetrics, recentValues,
          listMean, pyInt, pyMax])).2.1⟩

/-- C4 counterexample: a reachable history in which every healthy-replica
sample in the window is 0.  The aggregated metrics report healthy 1 (the
clamp), the factors contain no `no_healthy` sentinel, and the evaluation does
not emit the emergency scale-up decision — refuting the claim that some such
history produces the sentinel and the emergency decision. -/
theorem c4_counterexample_all_zero_healthy_window :
    getRecentMetrics (healthyOnlyHistory 45 0) 50 20 = some ⟨0, 0, 0, 0, 0, 1, 1⟩ ∧
    hasKey (calculateScaleFactors ⟨0, 0, 0, 0, 0, 1, 1⟩ {}) "no_healthy" = false ∧
    (evaluate_scaling (sampleInput 2 50 45 0) 0).1.reason ≠ Reason.emergencyNoHealthy ∧
    (evaluate_scaling (sampleInput 2 50 45 0) 0).1.should_scale = false := by
  norm_num +decide [evaluate_scaling, sampleInput, healthyOnlyHistory, getRecentMetrics,
    recentValues, listMean, pyInt, pyMax, calculateScaleFactors, makeScalingDecision,
    maxFactor, triggeredBy, hasKey, noScaleDecision, EMERGENCY_SCALE_FACTOR,
    MIN_SCALE_IN_STABLE_PERIODS]

/-- C5 (amended): over any sequence of evaluations starting with counter 0, a
decision that lowers the replica count is emitted only after at least
`MIN_SCALE_IN_STABLE_PERIODS = 3` evaluations (the emitting one included)
observed the maximum scale factor below the scale-in threshold; the target is
then exactly current minus 1 and the counter resets.  The observations need
not be consecutive calls: evaluations that return early without observing
metrics (manual mode, missing policy, cooldown, empty window) neither count
nor reset the counter. -/
theorem c5_amended_scale_in_hysteresis (l : List EvalInput) (x : EvalInput)
    (p : ScalingPolicy) (hpol : x.policy = some p)
    (hminmax : p.min_replicas ≤ p.max_replicas)
    (hs : (evaluate_scaling x (runStable l 0)).1.should_scale = true)
    (ht : (evaluate_scaling x (runStable l 0)).1.target_replicas <
      (evaluate_scaling x (runStable l 0)).1.current_replicas) :
    MIN_SCALE_IN_STABLE_PERIODS ≤ l.countP observesSubThreshold + 1 ∧
    observesSubThreshold x = true ∧
    (evaluate_scaling x (runStable l 0)).1.target_replicas = x.current_replicas - 1 ∧
    (evaluate_scaling x (runStable l 0)).2 = 0 := by
  have he := evaluate_scale_in_emission x p (runStable l 0) hpol hminmax hs ht
  have hc := runStable_le_countP l 0
  have h3 : MIN_SCALE_IN_STABLE_PERIODS = 3 := rfl
  exact ⟨by omega, he.1, he.2.2.1, he.2.2.2⟩

set_option maxHeartbeats 2000000 in
/-- Witness for C5 (amended) at a concrete trace: three consecutive
sub-threshold windows at 4 replicas under the default policy, the third
emitting the scale-in to 3. -/
theorem c5_amended_scale_in_hysteresis_witness :
    MIN_SCALE_IN_STABLE_PERIODS ≤
      [sampleInput 4 50 45 4, sampleInput 4 100 95 4].countP observesSubThreshold + 1 ∧
    observesSubThreshold (sampleInput 4 150 145 4) = true ∧
    (evaluate_scaling (sampleInput 4 150 145 4)
      (runStable [sampleInput 4 50 45 4, sampleInput 4 100 95 4] 0)).1.target_replicas =
      (sampleInput 4 150 145 4).current_replicas - 1 ∧
    (evaluate_scaling (sampleInput 4 150 145 4)
      (runStable [sampleInput 4 50 45 4, sampleInput 4 100 95 4] 0)).2 = 0 :=
  c5_amended_scale_in_hysteresis [sampleInput 4 50 45 4, sampleInput 4 100 95 4]
    (sampleInput 4 150 145 4) {} rfl (by decide)
    (by norm_num +decide [evaluate_scaling, sampleInput, healthyOnlyHistory,
      getRecentMetrics, recentValues, listMean, pyInt, pyMax, calculateScaleFactors,
      makeScalingDecision, maxFactor, triggeredBy, hasKey, noScaleDecision,
      EMERGENCY_SCALE_FACTOR, MIN_SCALE_IN_STABLE_PERIODS, runStable])
    (by norm_num +decide [evaluate_scaling, sampleInput, healthyOnlyHistory,
      getRecentMetrics, recentValues, listMean, pyInt, pyMax, calculateScaleFactors,
      makeScalingDecision, maxFactor, triggeredBy, hasKey, noScaleDecision,
      EMERGENCY_SCALE_FACTOR, MIN_SCALE_IN_STABLE_PERIODS, runStable])

set_option maxHeartbeats 2000000 in
/-- C5 counterexample to "3 consecutive evaluations": in the four-call trace
below, call 2 finds an empty metric window (it observes nothing and leaves
the counter untouched), yet call 4 still emits the scale-in — so the three
calls preceding the emission did not all observe sub-threshold factors, and
no three consecutive calls of the trace did. -/
theorem c5_counterexample_nonconsecutive_emission :
    (evaluate_scaling (sampleInput 4 400 395 4)
      (runStable [sampleInput 4 50 45 4, emptyHistoryInput 4 200, sampleInput 4 300 295 4]
        0)).1.should_scale = true ∧
    (evaluate_scaling (sampleInput 4 400 395 4)
      (runStable [sampleInput 4 50 45 4, emptyHistoryInput 4 200, sampleInput 4 300 295 4]
        0)).1.target_replicas = 3 ∧
    observesSubThreshold (sampleInput 4 50 45 4) = true ∧
    observesSubThreshold (emptyHistoryInput 4 200) = false ∧
    observesSubThreshold (sampleInput 4 300 295 4) = true ∧
    observesSubThreshold (sampleInput 4 400 395 4) = true := by
  norm_num +decide [evaluate_scaling, observesSubThreshold, sampleInput, emptyHistoryInput,
    healthyOnlyHistory, getRecentMetrics, recentValues, listMean, pyInt, pyMax,
    calculateScaleFactors, makeScalingDecision, maxFactor, triggeredBy, hasKey,
    noScaleDecision, EMERGENCY_SCALE_FACTOR, MIN_SCALE_IN_STABLE_PERIODS, runStable]

/-- C9 counterexample: the validation does not range-check the scaling
thresholds.  A policy with `scale_out_threshold_pct = 150` (outside (0, 100],
forbidden by the spec) passes `__post_init__` because the only threshold
check is `scale_in < scale_out`. -/
theorem c9_counterexample_threshold_range_unchecked :
    ScalingPolicy.postInitValidate { scale_out_threshold_pct := 150 } = .ok () ∧
    specForbiddenPolicy { scale_out_threshold_pct := 150 } := by
  constructor
  · norm_num [ScalingPolicy.postInitValidate]
  · simp only [specForbiddenPolicy]
    norm_num

/-- C9 (amended): `ScalingPolicy.__post_init__` accepts a policy exactly when
`min_replicas ≥ 1`, `max_replicas ≥ min_replicas`,
`scale_in_threshold_pct < scale_out_threshold_pct` (with no range check on
either threshold), `window_seconds ≥ 1`, `cooldown_seconds ≥ 0`, the
per-metric targets are nonnegative, and `max_cpu_percent` and
`max_memory_percent` lie in (0, 100]. -/
theorem c9_amended_validation_characterization (p : ScalingPolicy) :
    p.postInitValidate = .ok () ↔
      (1 ≤ p.min_replicas ∧ p.min_replicas ≤ p.max_replicas ∧
       p.scale_in_threshold_pct < p.scale_out_threshold_pct ∧
       1 ≤ p.window_seconds ∧ 0 ≤ p.cooldown_seconds ∧
       0 ≤ p.target_rps_per_replica ∧ 0 ≤ p.max_p95_latency_ms ∧
       0 ≤ p.max_conn_per_replica ∧
       0 < p.max_cpu_percent ∧ p.max_cpu_percent ≤ 100 ∧
       0 < p.max_memory_percent ∧ p.max_memory_percent ≤ 100) := by
  unfold ScalingPolicy.postInitValidate
  split_ifs with h1 h2 h3 h4 h5 h6 h7 h8 h9 h10
  · simp only [reduceCtorEq, false_iff]
    rintro ⟨c1, c2, c3, c4, c5, c6, c7, c8, c9a, c9b, c10a, c10b⟩
    omega
  · simp only [reduceCtorEq, false_iff]
    rintro ⟨c1, c2, c3, c4, c5, c6, c7, c8, c9a, c9b, c10a, c10b⟩
    omega
  · simp only [reduceCtorEq, false_iff]
    rintro ⟨c1, c2, c3, c4, c5, c6, c7, c8, c9a, c9b, c10a, c10b⟩
    omega
  · simp only [reduceCtorEq, false_iff]
    rintro ⟨c1, c2, c3, c4, c5, c6, c7, c8, c9a, c9b, c10a, c10b⟩
    omega
  · simp only [reduceCtorEq, false_iff]
    rintro ⟨c1, c2, c3, c4, c5, c6, c7, c8, c9a, c9b, c10a, c10b⟩
    omega
  · simp only [reduceCtorEq, false_iff]
    rintro ⟨c1, c2, c3, c4, c5, c6, c7, c8, c9a, c9b, c10a, c10b⟩
    omega
  · simp only [reduceCtorEq, false_iff]
    rintro ⟨c1, c2, c3, c4, c5, c6, c7, c8, c9a, c9b, c10a, c10b⟩
    omega
  · simp only [reduceCtorEq, false_iff]
    rintro ⟨c1, c2, c3, c4, c5, c6, c7, c8, c9a, c9b, c10a, c10b⟩
    omega
  · simp only [reduceCtorEq, false_iff]
    rintro ⟨c1, c2, c3, c4, c5, c6, c7, c8, c9a, c9b, c10a, c10b⟩
    rcases h9 with h9 | h9 <;> linarith
  · simp only [reduceCtorEq, false_iff]
    rintro ⟨c1, c2, c3, c4, c5, c6, c7, c8, c9a, c9b, c10a, c10b⟩
    rcases h10 with h10 | h10 <;> linarith
  · push_neg at h9 h10
    constructor
    · intro _
      exact ⟨by omega, by omega, by omega, by omega, by omega, by omega, by omega,
        by omega, h9.1, h9.2, h10.1, h10.2⟩
    · intro _
      rfl

/-- C8 (amended): when no database endpoint is reachable, `_get_connection`
does raise a `DatabaseError`, but every public store operation catches it and
returns its failure default — `save_app`, `delete_app` and
`update_app_status` return `False`, `get_app` returns `None` and `list_apps`
returns `[]` — values indistinguishable from normal output (the last
conjunct: `get_app` on an unreachable store equals `get_app` on a healthy
store whose table lacks the row).  No error reaches the caller. -/
theorem c8_amended_store_errors_swallowed (env : StoreEnv) (t : List AppRecord)
    (rec : AppRecord) (name status : String) (now : ℚ) (hdown : storeDown env) :
    (∃ e, getConnectionWrite env = .error e) ∧
    (∃ e, getConnectionRead env = .error e) ∧
    save_app env t rec = (t, false) ∧
    get_app env t name = none ∧
    list_apps env t = [] ∧
    delete_app env t name = (t, false) ∧
    update_app_status env t name status now = (t, false) ∧
    get_app env t name = get_app ⟨true, true, true, false⟩ [] name := by
  obtain ⟨hp, hr⟩ := hdown
  obtain ⟨e1, he1⟩ : ∃ e, getConnectionWrite env = .error e := by
    unfold getConnectionWrite
    split_ifs <;> simp_all
  obtain ⟨e2, he2⟩ : ∃ e, getConnectionRead env = .error e := by
    unfold getConnectionRead
    split_ifs <;> simp_all
  refine ⟨⟨e1, he1⟩, ⟨e2, he2⟩, ?_, ?_, ?_, ?_, ?_, ?_⟩
  · simp [save_app, he1]
  · simp [get_app, he2]
  · simp [list_apps, he2]
  · simp [delete_app, he1]
  · simp [update_app_status, he1]
  · rw [show get_app env t name = none from by simp [get_app, he2]]
    simp [get_app, getConnectionRead]

/-- Witness for C8 (amended) at a concrete input: both endpoints unreachable,
one record. -/
theorem c8_amended_store_errors_swallowed_witness :
    (∃ e, getConnectionWrite ⟨false, true, false, false⟩ = .error e) ∧
    (∃ e, getConnectionRead ⟨false, true, false, false⟩ = .error e) ∧
    save_app ⟨false, true, false, false⟩ []
      ⟨"app1", "{}", "running", 0, 0, 0, none, "auto"⟩ = ([], false) ∧
    get_app ⟨false, true, false, false⟩ [] "app1" = none ∧
    list_apps ⟨false, true, false, false⟩ [] = [] ∧
    delete_app ⟨false, true, false, false⟩ [] "app1" = ([], false) ∧
    update_app_status ⟨false, true, false, false⟩ [] "app1" "running" 0 = ([], false) ∧
    get_app ⟨false, true, false, false⟩ [] "app1" =
      get_app ⟨true, true, true, false⟩ [] "app1" :=
  c8_amended_store_errors_swallowed ⟨false, true, false, false⟩ []
    ⟨"app1", "{}", "running", 0, 0, 0, none, "auto"⟩ "app1" "running" 0 ⟨rfl, rfl⟩

/-- C8 counterexample: with no endpoint reachable, `save_app` returns the
boolean flag `False` (not an error), and `get_app` returns `None` — the very
value it returns on a healthy store when the row is absent, so the failure is
indistinguishable from normal output. -/
theorem c8_counterexample_unavailable_returns_defaults :
    save_app ⟨false, false, false, false⟩ []
      ⟨"app1", "{}", "running", 0, 0, 0, none, "auto"⟩ = ([], false) ∧
    get_app ⟨false, false, false, false⟩ [] "app1" = none ∧
    get_app ⟨true, true, true, false⟩ [] "app1" = none := by
  refine ⟨?_, ?_, ?_⟩ <;> rfl

/-- For the amended C7: creating replicas `a, a+1, …, a+k-1` on top of the
canonical state (tracked and existing containers exactly `0 … a-1`) appends
exactly those indices. -/
theorem startContainer_fold_range (a k : Nat) :
    (List.range' a k).foldl (fun st i => (startContainer st i).1)
      ⟨List.range a, List.range a⟩ = ⟨List.range (a + k), List.range (a + k)⟩ := by
  induction k generalizing a with
  | zero => simp
  | succ k ih =>
    rw [List.range'_succ]
    simp only [List.foldl_cons]
    have hstep : (startContainer ⟨List.range a, List.range a⟩ a).1 =
        ⟨List.range (a + 1), List.range (a + 1)⟩ := by
      simp [startContainer, List.range_succ]
    rw [hstep, ih (a + 1), show a + 1 + k = a + (k + 1) from by omega]

/-- For the amended C7: erasing the indices `m, m+1, …, m+k-1` from a list
that is `pre` followed by exactly those indices leaves `pre`, provided every
element of `pre` is smaller than `m`. -/
theorem eraseFold_keeps_lower (pre : List Nat) (m k : Nat)
    (hpre : ∀ x ∈ pre, x < m) :
    (List.range' m k).foldl (fun ex i => ex.erase i) (pre ++ List.range' m k) = pre := by
  induction k generalizing pre m with
  | zero => simp
  | succ k ih =>
    rw [List.range'_succ]
    simp only [List.foldl_cons]
    have hnm : m ∉ pre := fun hmem => absurd (hpre m hmem) (lt_irrefl m)
    rw [List.erase_append_right _ hnm, List.erase_cons_head]
    exact ih pre (m + 1) fun x hx => Nat.lt_succ_of_lt (hpre x hx)

/-- C7 counterexample: `AppManager.scale` does not pick indices the way the
claim states.  Scale-down removes the tail of the tracked list, not the
highest indices: from tracked list `[2, 0]` (adoption order; reachable since
`reconcile_app` appends in Docker listing order) scaling to 1 removes index 0
and keeps the highest index 2.  Scale-up passes `current_replicas + offset`
as the new index: from tracked `[0, 2]` (container `app-1` was removed
externally) scaling to 3 attempts index 2, whose container name already
exists, so creation fails and the smallest unused index 1 is never used. -/
theorem c7_counterexample_scale_indices :
    scaleApp ⟨[2, 0], [0, 2]⟩ 1 = ⟨[2], [2]⟩ ∧
    (scaleApp ⟨[2, 0], [0, 2]⟩ 1).tracked ≠ [0] ∧
    scaleApp ⟨[0, 2], [0, 2]⟩ 3 = ⟨[0, 2], [0, 2]⟩ ∧
    ¬ 1 ∈ (scaleApp ⟨[0, 2], [0, 2]⟩ 3).tracked := by decide

/-- C7 (amended): in the canonical state — tracked instances at indices
`0 … current-1` in order, and no other labelled container — `scale(app, n)`
behaves as the claim states: scale-up creates the new replicas at the fresh
indices `current … n-1` (each the smallest unused), and scale-down removes
exactly the highest-indexed replicas, leaving `0 … n-1`.  Outside the
canonical state (tracked list not in index order, or stale labelled
containers) the claim fails, as the counterexample shows. -/
theorem c7_amended_scale_on_canonical_state (cur n : Nat) :
    scaleApp ⟨List.range cur, List.range cur⟩ n = ⟨List.range n, List.range n⟩ := by
  unfold scaleApp
  simp only [List.length_range]
  by_cases h1 : n = cur
  · subst h1
    simp
  · simp only [if_neg h1]
    by_cases h2 : cur < n
    · simp only [if_pos h2]
      have h := startContainer_fold_range cur (n - cur)
      rw [show cur + (n - cur) = n from by omega] at h
      exact h
    · simp only [if_neg h2]
      have hn : n ≤ cur := by omega
      have hsplit : List.range cur = List.range n ++ List.range' n (cur - n) := by
        have h := List.range'_append_1 0 n (cur - n)
        simp only [Nat.zero_add] at h
        rw [List.range_eq_range', List.range_eq_range' n, h,
          show cur - n + n = cur from by omega]
      have htake : (List.range cur).take n = List.range n := by
        rw [List.take_range, show min n cur = n from by omega]
      have hdrop : (List.range cur).drop n = List.range' n (cur - n) := by
        rw [hsplit, List.drop_left' (List.length_range n)]
      rw [htake, hdrop]
      have herase := eraseFold_keeps_lower (List.range n) n (cur - n)
        (fun x hx => List.mem_range.mp hx)
      rw [show List.range n ++ List.range' n (cur - n) = List.range cur from hsplit.symm]
        at herase
      rw [herase]

end Orchestry
